import Mathlib

/-!
Shallow embedding of the WebDAV handler layer (package `dav`, file
`src/unnamed/part_000`).  External collaborators (the lock store, the
filesystem, the URL / If-header / timeout parsers and the copy/move
engine) are modelled as oracles collected in an `Env` record; the
handler bodies themselves are translated line by line from the source.
HTTP statuses are plain naturals; Go `error` values are `Option GoError`.
-/

namespace Dav

/-- Go `error` values the handler compares against or produces.  Named
constructors mirror the `errors.New` block at the bottom of the source and
the exported `Err*` values of the lock store; `notExist` marks errors for
which `os.IsNotExist` holds; `other` covers every remaining error. -/
inductive GoError where
  | errLocked
  | errConfirmationFailed
  | errNoSuchLock
  | errForbidden
  | errPrefixMismatch
  | errInvalidIfHeader
  | errInvalidDestination
  | errDestinationEqualsSource
  | errInvalidDepth
  | errInvalidLockToken
  | notExist (s : String)
  | other (s : String)
deriving DecidableEq, Repr

/-- Go `os.IsNotExist`, specialised to our error model. -/
def os_IsNotExist : GoError → Bool
  | .notExist _ => true
  | _ => false

/-- `LockDetails` as used by the handler (root path, duration, owner XML,
zero-depth flag).  Duration is an integer number of seconds with the
`infiniteTimeout` sentinel. -/
structure LockDetails where
  root : String
  duration : Int
  ownerXML : String
  zeroDepth : Bool
deriving DecidableEq, Repr

/-- Sentinel for an infinite lock timeout (the `infiniteTimeout` constant
of the lock store, referenced by `Handler.lock`). -/
def infiniteTimeout : Int := -1

/-- One condition of an If-header list: `(Not?, token, ETag)`. -/
structure Condition where
  neg : Bool
  token : String
  etag : String
deriving DecidableEq, Repr

/-- One list of a parsed If header: an optional resource tag plus a
conjunction of conditions. -/
structure IfList where
  resourceTag : String
  conditions : List Condition
deriving DecidableEq, Repr

/-- A parsed If header: a disjunction of lists. -/
structure IfHeader where
  lists : List IfList
deriving DecidableEq, Repr

/-- Host and path of a parsed URL (the two fields of `url.URL` the
handler consults). -/
structure URLParts where
  host : String
  path : String
deriving DecidableEq, Repr

/-- The parsed XML body of a LOCK request.  `li == (LockInfo{})` in the
source becomes equality with `emptyLockInfo`. -/
structure LockInfo where
  shared : Bool
  exclusive : Bool
  write : Bool
  ownerXML : String
deriving DecidableEq, Repr

/-- The zero value of `LockInfo`. -/
def emptyLockInfo : LockInfo := ⟨false, false, false, ""⟩

/-- File metadata the handlers consult. -/
structure FileInfo where
  isDir : Bool
deriving DecidableEq, Repr

/-- A call into the copy/move engine, recording the arguments the handler
hands to `copyFiles` / `moveFiles`. -/
inductive EngineCall where
  | copy (src dst : String) (overwrite : Bool) (depth : Int)
  | move (src dst : String) (overwrite : Bool)
deriving DecidableEq, Repr

/-- The release function returned by `confirmLocks`: either the list of
temporary-lock tokens it will unlock, in order (branch without If header),
or the opaque release obtained from `LockSystem.Confirm` (identified by a
numeral). -/
inductive Release where
  | tokens (ts : List String)
  | confirmRelease (id : Nat)
deriving DecidableEq, Repr

instance instDecEqExcept {ε α : Type} [DecidableEq ε] [DecidableEq α] :
    DecidableEq (Except ε α) := fun x y =>
  match x, y with
  | .ok a, .ok b =>
    if h : a = b then isTrue (by simp [h]) else isFalse (by simp [h])
  | .error a, .error b =>
    if h : a = b then isTrue (by simp [h]) else isFalse (by simp [h])
  | .ok _, .error _ => isFalse (by simp)
  | .error _, .ok _ => isFalse (by simp)

/-- Observable lock-store effects performed while `confirmLocks` or
`handleLock` runs. -/
inductive LockEvent where
  | create (ld : LockDetails) (res : Except GoError String)
  | unlock (token : String)
deriving DecidableEq, Repr

/-- Actions of `handleLock`, recorded in order. -/
inductive LockAction where
  | createdLock (ld : LockDetails) (token : String)
  | unlockedTok (token : String)
  | refreshed (token : String) (dur : Int)
  | wroteLockInfo (token : String) (ld : LockDetails)
  | openedFile (p : String)
deriving DecidableEq, Repr

/-- The external collaborators, as oracles: the configured prefix, the
URL / If-header / timeout parsers, the lock store (`Create`, `Confirm`,
`Refresh`, `Unlock`), the filesystem (`Stat`, `OpenFile`, `Mkdir`, the
`File.Stat` of an opened handle), `findETag`, the copy/move engine and
the parsed LOCK request body. -/
structure Env where
  pre : String
  parseURL : String → Option URLParts
  parseIf : String → Option IfHeader
  createRes : LockDetails → Except GoError String
  confirmRes : String → String → List Condition → Except GoError Nat
  engine : EngineCall → Nat × Option GoError
  mkdirRes : String → Option GoError
  parseTimeout : String → Except GoError Int
  readLockInfo : Except (Nat × GoError) LockInfo
  refreshRes : String → Int → Except GoError LockDetails
  statRes : String → Option GoError
  openRes : String → Option GoError
  fstatRes : Except GoError FileInfo
  etagRes : String → Except GoError String
  unlockRes : String → Option GoError

/-- An HTTP request, reduced to the fields the handlers consult.
`headers` is `r.Header.Get`: it yields `""` for an absent header. -/
structure Request where
  method : String
  urlPath : String
  host : String
  headers : String → String

/-- `Handler.stripPrefix`: empty prefix passes the path through; a path
that strictly shrinks under `strings.TrimPrefix` is accepted; anything
else is a 404 prefix mismatch. -/
def stripPrefix (pre p : String) : String × Nat × Option GoError :=
  if pre = "" then (p, 200, none)
  else if pre.isPrefixOf p then (p.drop pre.length, 200, none)
  else (p, 404, some .errPrefixMismatch)

/-- Depth sentinel `infiniteDepth`. -/
def infiniteDepth : Int := -1

/-- Depth sentinel `invalidDepth`. -/
def invalidDepth : Int := -2

/-- `parseDepth` maps "0", "1", "infinity" to 0, 1, `infiniteDepth`, and
everything else to `invalidDepth`. -/
def parseDepth (s : String) : Int :=
  if s = "0" then 0
  else if s = "1" then 1
  else if s = "infinity" then infiniteDepth
  else invalidDepth

/-- Status chosen by `Handler.lock` for a failing `Create`: 423 for
`ErrLocked`, 500 otherwise. -/
def lockStatus (e : GoError) : Nat := if e = .errLocked then 423 else 500

/-- The `LockDetails` of a temporary lock created by `Handler.lock`:
rooted at the given path, infinite duration, zero depth. -/
def tempLD (root : String) : LockDetails :=
  { root := root, duration := infiniteTimeout, ownerXML := "", zeroDepth := true }

/-- The no-If-header branch of `confirmLocks`: create a temporary lock on
`src` (when non-empty), then on `dst` (when non-empty); on a `dst`
failure unlock the `src` token first; on success return a release
unlocking `dst` then `src`.  First component: the lock-store events
performed during the call itself. -/
def confirmLocksNoIf (cr : LockDetails → Except GoError String) (src dst : String) :
    List LockEvent × Option Release × Nat × Option GoError :=
  match (if src = "" then Except.ok ([], "") else
    match cr (tempLD src) with
    | .error e => Except.error ([LockEvent.create (tempLD src) (.error e)], lockStatus e, e)
    | .ok t => Except.ok ([LockEvent.create (tempLD src) (.ok t)], t)) with
  | .error (evs, st, e) => (evs, none, st, some e)
  | .ok (evs, srcToken) =>
    if dst = "" then
      (evs, some (.tokens (if srcToken ≠ "" then [srcToken] else [])), 0, none)
    else
      match cr (tempLD dst) with
      | .error e =>
        (evs ++ [LockEvent.create (tempLD dst) (.error e)] ++
          (if srcToken ≠ "" then [LockEvent.unlock srcToken] else []),
         none, lockStatus e, some e)
      | .ok dstToken =>
        (evs ++ [LockEvent.create (tempLD dst) (.ok dstToken)],
         some (.tokens ((if dstToken ≠ "" then [dstToken] else []) ++
           (if srcToken ≠ "" then [srcToken] else []))),
         0, none)

/-- Outcome of resolving one If-list's resource tag: skip the list (tag
fails to parse as a URL, or its host differs from the request host),
fail the whole request (prefix strip fails), or proceed with the
effective source path. -/
inductive TagResult where
  | skipList
  | failNow (status : Nat) (e : GoError)
  | path (p : String)
deriving DecidableEq, Repr

/-- Resolve an If-list's resource tag exactly as the loop body of
`confirmLocks` does. -/
def resolveTag (pre host : String) (parseURL : String → Option URLParts)
    (src : String) (l : IfList) : TagResult :=
  if l.resourceTag = "" then .path src
  else
    match parseURL l.resourceTag with
    | none => .skipList
    | some u =>
      if u.host ≠ host then .skipList
      else
        match stripPrefix pre u.path with
        | (_, st, some e) => .failNow st e
        | (p, _, none) => .path p

/-- The list-iteration loop of the If-header branch of `confirmLocks`.
Result: the `Confirm` release (as an identifier) on success, otherwise
the failing status and error; an exhausted list of lists yields
`(412, ErrLocked)`. -/
def confirmLoop (env : Env) (host src dst : String) :
    List IfList → Option Nat × Nat × Option GoError
  | [] => (none, 412, some .errLocked)
  | l :: rest =>
    match resolveTag env.pre host env.parseURL src l with
    | .skipList => confirmLoop env host src dst rest
    | .failNow st e => (none, st, some e)
    | .path lsrc =>
      match env.confirmRes lsrc dst l.conditions with
      | .error e =>
        if e = .errConfirmationFailed then confirmLoop env host src dst rest
        else (none, 500, some e)
      | .ok rid => (some rid, 0, none)

/-- `Handler.confirmLocks`: an empty If header takes the temporary-lock
branch; otherwise the header is parsed (400 on failure) and the lists are
tried in order. -/
def confirmLocks (env : Env) (host ifHdr src dst : String) :
    List LockEvent × Option Release × Nat × Option GoError :=
  if ifHdr = "" then
    confirmLocksNoIf env.createRes src dst
  else
    match env.parseIf ifHdr with
    | none => ([], none, 400, some .errInvalidIfHeader)
    | some ih =>
      match confirmLoop env host src dst ih.lists with
      | (orid, st, e) => ([], orid.map Release.confirmRelease, st, e)

/-- Build the COPY-branch result once the engine call is determined. -/
def runEngine (env : Env) (c : EngineCall) : Option EngineCall × Nat × Option GoError :=
  (some c, (env.engine c).1, (env.engine c).2)

/-- `Handler.handleCopyMove`: parse and validate the Destination header,
strip both paths, reject empty / equal destinations, confirm locks
(destination only for COPY, both for MOVE), enforce the per-method Depth
constraints and call the engine.  First component: the engine call that
was made, if any. -/
def handleCopyMove (env : Env) (r : Request) : Option EngineCall × Nat × Option GoError :=
  if r.headers "Destination" = "" then (none, 400, some .errInvalidDestination)
  else
    match env.parseURL (r.headers "Destination") with
    | none => (none, 400, some .errInvalidDestination)
    | some u =>
      if u.host ≠ r.host then (none, 502, some .errInvalidDestination)
      else
        match stripPrefix env.pre r.urlPath with
        | (_, st, some e) => (none, st, some e)
        | (src, _, none) =>
          match stripPrefix env.pre u.path with
          | (_, st, some e) => (none, st, some e)
          | (dst, _, none) =>
            if dst = "" then (none, 502, some .errInvalidDestination)
            else if dst = src then (none, 403, some .errDestinationEqualsSource)
            else if r.method = "COPY" then
              match confirmLocks env r.host (r.headers "If") "" dst with
              | (_, _, st, some e) => (none, st, some e)
              | (_, _, _, none) =>
                if r.headers "Depth" = "" then
                  runEngine env (.copy src dst (r.headers "Overwrite" ≠ "F") infiniteDepth)
                else
                  if parseDepth (r.headers "Depth") ≠ 0 ∧
                      parseDepth (r.headers "Depth") ≠ infiniteDepth then
                    (none, 400, some .errInvalidDepth)
                  else
                    runEngine env
                      (.copy src dst (r.headers "Overwrite" ≠ "F") (parseDepth (r.headers "Depth")))
            else
              match confirmLocks env r.host (r.headers "If") src dst with
              | (_, _, st, some e) => (none, st, some e)
              | (_, _, _, none) =>
                if r.headers "Depth" ≠ "" ∧ parseDepth (r.headers "Depth") ≠ infiniteDepth then
                  (none, 400, some .errInvalidDepth)
                else
                  runEngine env (.move src dst (r.headers "Overwrite" = "T"))

/-- `Handler.handleMkcol`: strip the path, confirm locks, reject a
request with `ContentLength > 0` as 415, then `Mkdir` (absent parent →
409, other error → 405, success → 201).  First component: whether the
`Mkdir` call was reached. -/
def handleMkcol (env : Env) (r : Request) (contentLength : Int) :
    Bool × Nat × Option GoError :=
  match stripPrefix env.pre r.urlPath with
  | (_, st, some e) => (false, st, some e)
  | (reqPath, _, none) =>
    match confirmLocks env r.host (r.headers "If") reqPath "" with
    | (_, _, st, some e) => (false, st, some e)
    | (_, _, _, none) =>
      if contentLength > 0 then (false, 415, none)
      else
        match env.mkdirRes reqPath with
        | some e => (true, if os_IsNotExist e then 409 else 405, some e)
        | none => (true, 201, none)

/-- Token extraction of the refresh branch of `handleLock`: the token of
the single condition of the single list, `""` otherwise. -/
def refreshToken (ih : IfHeader) : String :=
  match ih.lists with
  | [l] =>
    match l.conditions with
    | [c] => c.token
    | _ => ""
  | _ => ""

/-- `Handler.handleLock`: parse Timeout and the lock-info body; an empty
body refreshes the lock named by the If header, a non-empty body creates
a lock (rolling it back, via the deferred `Unlock`, whenever the rest of
the handler returns a non-nil error) and creates the null resource when
the path does not yet exist.  First component: the lock actions
performed, in order. -/
def handleLock (env : Env) (r : Request) : List LockAction × Nat × Option GoError :=
  match env.parseTimeout (r.headers "Timeout") with
  | .error e => ([], 400, some e)
  | .ok duration =>
    match env.readLockInfo with
    | .error (st, e) => ([], st, some e)
    | .ok li =>
      if li = emptyLockInfo then
        match env.parseIf (r.headers "If") with
        | none => ([], 400, some .errInvalidIfHeader)
        | some ih =>
          if refreshToken ih = "" then ([], 400, some .errInvalidLockToken)
          else
            match env.refreshRes (refreshToken ih) duration with
            | .error e =>
              ([.refreshed (refreshToken ih) duration],
               if e = .errNoSuchLock then 412 else 500, some e)
            | .ok ld =>
              ([.refreshed (refreshToken ih) duration,
                .wroteLockInfo (refreshToken ih) ld], 0, none)
      else
        if r.headers "Depth" ≠ "" ∧ parseDepth (r.headers "Depth") ≠ 0 ∧
            parseDepth (r.headers "Depth") ≠ infiniteDepth then
          ([], 400, some .errInvalidDepth)
        else
          match stripPrefix env.pre r.urlPath with
          | (_, st, some e) => ([], st, some e)
          | (reqPath, _, none) =>
            match env.createRes
                { root := reqPath, duration := duration, ownerXML := li.ownerXML,
                  zeroDepth := (if r.headers "Depth" = "" then infiniteDepth
                    else parseDepth (r.headers "Depth")) = 0 } with
            | .error e => ([], if e = .errLocked then 423 else 500, some e)
            | .ok token =>
              let ld : LockDetails :=
                { root := reqPath, duration := duration, ownerXML := li.ownerXML,
                  zeroDepth := (if r.headers "Depth" = "" then infiniteDepth
                    else parseDepth (r.headers "Depth")) = 0 }
              match env.statRes reqPath with
              | some _ =>
                match env.openRes reqPath with
                | some e2 =>
                  ([.createdLock ld token, .unlockedTok token], 500, some e2)
                | none =>
                  ([.createdLock ld token, .openedFile reqPath,
                    .wroteLockInfo token ld], 0, none)
              | none =>
                ([.createdLock ld token, .wroteLockInfo token ld], 0, none)

/-- `Handler.handleUnlock`: de-bracket the Lock-Token header (400 when it
is not of the form `<`…`>`), call `Unlock` and map the outcome to
204 / 403 / 423 / 409 / 500.  Last component: the token handed to
`Unlock`, if the call was made. -/
def handleUnlock (env : Env) (r : Request) : Nat × Option GoError × Option String :=
  if (r.headers "Lock-Token").length < 2 ∨ (r.headers "Lock-Token").front ≠ '<' ∨
      (r.headers "Lock-Token").back ≠ '>' then
    (400, some .errInvalidLockToken, none)
  else
    match env.unlockRes (((r.headers "Lock-Token").drop 1).dropRight 1) with
    | none => (204, none, some (((r.headers "Lock-Token").drop 1).dropRight 1))
    | some e =>
      (if e = .errForbidden then 403
       else if e = .errLocked then 423
       else if e = .errNoSuchLock then 409
       else 500, some e, some (((r.headers "Lock-Token").drop 1).dropRight 1))

/-- `Handler.handleGetHeadPost`: strip the path, open the file read-only
(any failure → 404), stat the handle (any failure → 404), reject
directories with 405, compute the ETag (failure → 500) and serve the
content.  First component: whether `http.ServeContent` was reached. -/
def handleGetHeadPost (env : Env) (r : Request) : Bool × Nat × Option GoError :=
  match stripPrefix env.pre r.urlPath with
  | (_, st, some e) => (false, st, some e)
  | (reqPath, _, none) =>
    match env.openRes reqPath with
    | some e => (false, 404, some e)
    | none =>
      match env.fstatRes with
      | .error e => (false, 404, some e)
      | .ok fi =>
        if fi.isDir then (false, 405, none)
        else
          match env.etagRes reqPath with
          | .error e => (false, 500, some e)
          | .ok _ => (true, 0, none)

/-- A baseline oracle environment for concrete evaluations: empty
prefix, parsers that fail, a lock store that always hands out the token
"tok", a filesystem without errors. -/
def defaultEnv : Env where
  pre := ""
  parseURL := fun _ => none
  parseIf := fun _ => none
  createRes := fun _ => .ok "tok"
  confirmRes := fun _ _ _ => .error .errConfirmationFailed
  engine := fun _ => (204, none)
  mkdirRes := fun _ => none
  parseTimeout := fun _ => .ok infiniteTimeout
  readLockInfo := .ok emptyLockInfo
  refreshRes := fun _ _ => .error .errNoSuchLock
  statRes := fun _ => none
  openRes := fun _ => none
  fstatRes := .ok ⟨false⟩
  etagRes := fun _ => .ok "etag"
  unlockRes := fun _ => none

/-- Environment for concrete COPY/MOVE requests: the destination URL
"http://h/d" parses to host "h" and path "/d". -/
def envCM : Env :=
  { defaultEnv with
    parseURL := fun s => if s = "http://h/d" then some ⟨"h", "/d"⟩ else none }

/-- A MOVE request from "/s" to "http://h/d" carrying no Overwrite and
no Depth header. -/
def reqMoveNoOverwrite : Request where
  method := "MOVE"
  urlPath := "/s"
  host := "h"
  headers := fun name => if name = "Destination" then "http://h/d" else ""

/-- A COPY request from "/s" to "http://h/d" carrying no Overwrite and
no Depth header. -/
def reqCopyNoOverwrite : Request where
  method := "COPY"
  urlPath := "/s"
  host := "h"
  headers := fun name => if name = "Destination" then "http://h/d" else ""

/-- C1, counterexample: a MOVE request whose Overwrite header is absent
(hence not "F") reaches the engine with overwrite = false, although the
claim demands overwrite = true for every header value other than "F" on
both methods. -/
theorem C1_counterexample :
    (handleCopyMove envCM reqMoveNoOverwrite).1 =
      some (EngineCall.move "/s" "/d" false) ∧
    reqMoveNoOverwrite.headers "Overwrite" ≠ "F" := by
  exact ⟨rfl, by decide⟩

/-- C1, amended: the overwrite flag handed to the engine is
`Overwrite ≠ "F"` for COPY but `Overwrite = "T"` for MOVE; an absent or
other header value yields true for COPY and false for MOVE, so the two
methods do not treat the header identically. -/
theorem C1_overwrite_flag (env : Env) (r : Request) :
    (∀ s d ov dp, (handleCopyMove env r).1 = some (EngineCall.copy s d ov dp) →
      (ov = true ↔ r.headers "Overwrite" ≠ "F")) ∧
    (∀ s d ov, (handleCopyMove env r).1 = some (EngineCall.move s d ov) →
      (ov = true ↔ r.headers "Overwrite" = "T")) := by
  constructor
  · intro s d ov dp h
    unfold handleCopyMove runEngine at h
    repeat' split at h
    all_goals try simp_all
    all_goals (cases ov <;> simp_all)
  · intro s d ov h
    unfold handleCopyMove runEngine at h
    repeat' split at h
    all_goals try simp_all
    all_goals (cases ov <;> simp_all)

/-- C1 witness: the amended statement evaluated on the concrete COPY and
MOVE requests without an Overwrite header. -/
theorem C1_witness :
    (true = true ↔ reqCopyNoOverwrite.headers "Overwrite" ≠ "F") ∧
    (false = true ↔ reqMoveNoOverwrite.headers "Overwrite" = "T") :=
  ⟨(C1_overwrite_flag envCM reqCopyNoOverwrite).1 "/s" "/d" true infiniteDepth rfl,
   (C1_overwrite_flag envCM reqMoveNoOverwrite).2 "/s" "/d" false rfl⟩

/-- A COPY request from "/s" to "http://h/d" with `Depth: 1`. -/
def reqCopyDepth1 : Request where
  method := "COPY"
  urlPath := "/s"
  host := "h"
  headers := fun name =>
    if name = "Destination" then "http://h/d"
    else if name = "Depth" then "1" else ""

/-- A MOVE request from "/s" to "http://h/d" with `Depth: 0`. -/
def reqMoveDepth0 : Request where
  method := "MOVE"
  urlPath := "/s"
  host := "h"
  headers := fun name =>
    if name = "Destination" then "http://h/d"
    else if name = "Depth" then "0" else ""

/-- C7: a COPY that reaches the engine does so with depth infinity when
no Depth header is present and with depth 0 or infinity always; a COPY
whose present Depth header parses to neither 0 nor infinity fails 400
after its preamble succeeds, and a MOVE whose present Depth header does
not parse to infinity fails 400 after its preamble succeeds. -/
theorem C7_depth (env : Env) (r : Request) :
    (∀ s d ov dp, (handleCopyMove env r).1 = some (EngineCall.copy s d ov dp) →
      (r.headers "Depth" = "" → dp = infiniteDepth) ∧ (dp = 0 ∨ dp = infiniteDepth)) ∧
    (∀ u src dst, r.method = "COPY" →
      r.headers "Destination" ≠ "" →
      env.parseURL (r.headers "Destination") = some u →
      u.host = r.host →
      stripPrefix env.pre r.urlPath = (src, 200, none) →
      stripPrefix env.pre u.path = (dst, 200, none) →
      dst ≠ "" → dst ≠ src →
      (confirmLocks env r.host (r.headers "If") "" dst).2.2.2 = none →
      r.headers "Depth" ≠ "" →
      parseDepth (r.headers "Depth") ≠ 0 →
      parseDepth (r.headers "Depth") ≠ infiniteDepth →
      handleCopyMove env r = (none, 400, some .errInvalidDepth)) ∧
    (∀ u src dst, r.method = "MOVE" →
      r.headers "Destination" ≠ "" →
      env.parseURL (r.headers "Destination") = some u →
      u.host = r.host →
      stripPrefix env.pre r.urlPath = (src, 200, none) →
      stripPrefix env.pre u.path = (dst, 200, none) →
      dst ≠ "" → dst ≠ src →
      (confirmLocks env r.host (r.headers "If") src dst).2.2.2 = none →
      r.headers "Depth" ≠ "" →
      parseDepth (r.headers "Depth") ≠ infiniteDepth →
      handleCopyMove env r = (none, 400, some .errInvalidDepth)) := by
  refine ⟨?_, ?_, ?_⟩
  · intro s d ov dp h
    unfold handleCopyMove runEngine at h
    repeat' split at h
    all_goals simp_all
    all_goals tauto
  · intro u src dst hm hdne hu hhost hs1 hs2 hdn hds hcl hdp hd0 hdi
    rcases hE : confirmLocks env r.host (r.headers "If") "" dst with ⟨evs, rel, st0, oe⟩
    rw [hE] at hcl
    simp only at hcl
    subst hcl
    unfold handleCopyMove
    simp [hdne, hu, hhost, hs1, hs2, hdn, hds, hm, hE, hdp, hd0, hdi]
  · intro u src dst hm hdne hu hhost hs1 hs2 hdn hds hcl hdp hdi
    rcases hE : confirmLocks env r.host (r.headers "If") src dst with ⟨evs, rel, st0, oe⟩
    rw [hE] at hcl
    simp only at hcl
    subst hcl
    unfold handleCopyMove
    simp [hdne, hu, hhost, hs1, hs2, hdn, hds, hm, hE, hdp, hdi]

/-- C7 witness: `Depth: 1` on COPY and `Depth: 0` on MOVE both yield
400, and a COPY without a Depth header reaches the engine with depth
infinity. -/
theorem C7_witness :
    ((reqCopyNoOverwrite.headers "Depth" = "" → infiniteDepth = infiniteDepth) ∧
      (infiniteDepth = 0 ∨ infiniteDepth = infiniteDepth)) ∧
    handleCopyMove envCM reqCopyDepth1 = (none, 400, some .errInvalidDepth) ∧
    handleCopyMove envCM reqMoveDepth0 = (none, 400, some .errInvalidDepth) :=
  ⟨(C7_depth envCM reqCopyNoOverwrite).1 "/s" "/d" true infiniteDepth rfl,
   (C7_depth envCM reqCopyDepth1).2.1 ⟨"h", "/d"⟩ "/s" "/d" rfl (by decide) rfl rfl rfl rfl
     (by decide) (by decide) rfl (by decide) (by decide) (by decide),
   (C7_depth envCM reqMoveDepth0).2.2 ⟨"h", "/d"⟩ "/s" "/d" rfl (by decide) rfl rfl rfl rfl
     (by decide) (by decide) rfl (by decide) (by decide)⟩

/-- C2: with a well-formed If header, `confirmLocks` defers to the list
loop; the loop skips a list whose `Confirm` returns ConfirmationFailed,
returns 500 with the error on any other `Confirm` failure, returns the
succeeding list's release with status 0, and yields 412 with ErrLocked
once every list has failed. -/
theorem C2_confirmLocks_ifHeader (env : Env) (host src dst hdr : String) :
    (∀ ih, hdr ≠ "" → env.parseIf hdr = some ih →
      confirmLocks env host hdr src dst =
        ([], (confirmLoop env host src dst ih.lists).1.map Release.confirmRelease,
         (confirmLoop env host src dst ih.lists).2.1,
         (confirmLoop env host src dst ih.lists).2.2)) ∧
    (confirmLoop env host src dst [] = (none, 412, some .errLocked)) ∧
    (∀ l rest lsrc, resolveTag env.pre host env.parseURL src l = .path lsrc →
      env.confirmRes lsrc dst l.conditions = .error .errConfirmationFailed →
      confirmLoop env host src dst (l :: rest) = confirmLoop env host src dst rest) ∧
    (∀ l rest lsrc e, resolveTag env.pre host env.parseURL src l = .path lsrc →
      env.confirmRes lsrc dst l.conditions = .error e → e ≠ .errConfirmationFailed →
      confirmLoop env host src dst (l :: rest) = (none, 500, some e)) ∧
    (∀ l rest lsrc rid, resolveTag env.pre host env.parseURL src l = .path lsrc →
      env.confirmRes lsrc dst l.conditions = .ok rid →
      confirmLoop env host src dst (l :: rest) = (some rid, 0, none)) := by
  refine ⟨?_, rfl, ?_, ?_, ?_⟩
  · intro ih hne hp
    unfold confirmLocks
    simp [hne, hp]
  · intro l rest lsrc hres hc
    simp [confirmLoop, hres, hc]
  · intro l rest lsrc e hres hc hne
    simp [confirmLoop, hres, hc, hne]
  · intro l rest lsrc rid hres hc
    simp [confirmLoop, hres, hc]

/-- Environment for concrete If-header scenarios: the header "(<t>)"
parses to one list with no resource tag and the single condition
`<t>`; `Confirm` succeeds on source "/ok" with release 7, fails fatally
on "/bad" and reports ConfirmationFailed elsewhere. -/
def envIf : Env :=
  { defaultEnv with
    parseIf := fun s =>
      if s = "(<t>)" then some ⟨[⟨"", [⟨false, "t", ""⟩]⟩]⟩ else none,
    confirmRes := fun p _ _ =>
      if p = "/ok" then .ok 7
      else if p = "/bad" then .error (.other "boom")
      else .error .errConfirmationFailed }

/-- C2 witness: the concrete header "(<t>)" on source "/skip" has its
only list fail confirmation, so `confirmLocks` answers 412 with
ErrLocked; on source "/ok" the loop succeeds with release 7 and on
source "/bad" it fails 500. -/
theorem C2_witness :
    confirmLocks envIf "h" "(<t>)" "/skip" "/d" =
      ([], (confirmLoop envIf "h" "/skip" "/d" [⟨"", [⟨false, "t", ""⟩]⟩]).1.map
        Release.confirmRelease,
       (confirmLoop envIf "h" "/skip" "/d" [⟨"", [⟨false, "t", ""⟩]⟩]).2.1,
       (confirmLoop envIf "h" "/skip" "/d" [⟨"", [⟨false, "t", ""⟩]⟩]).2.2) ∧
    confirmLoop envIf "h" "/skip" "/d" [⟨"", [⟨false, "t", ""⟩]⟩] =
      confirmLoop envIf "h" "/skip" "/d" [] ∧
    confirmLoop envIf "h" "/bad" "/d" [⟨"", [⟨false, "t", ""⟩]⟩] =
      (none, 500, some (.other "boom")) ∧
    confirmLoop envIf "h" "/ok" "/d" [⟨"", [⟨false, "t", ""⟩]⟩] = (some 7, 0, none) :=
  ⟨(C2_confirmLocks_ifHeader envIf "h" "/skip" "/d" "(<t>)").1
      ⟨[⟨"", [⟨false, "t", ""⟩]⟩]⟩ (by decide) rfl,
   (C2_confirmLocks_ifHeader envIf "h" "/skip" "/d" "(<t>)").2.2.1
      ⟨"", [⟨false, "t", ""⟩]⟩ [] "/skip" rfl rfl,
   (C2_confirmLocks_ifHeader envIf "h" "/bad" "/d" "(<t>)").2.2.2.1
      ⟨"", [⟨false, "t", ""⟩]⟩ [] "/bad" (.other "boom") rfl rfl (by decide),
   (C2_confirmLocks_ifHeader envIf "h" "/ok" "/d" "(<t>)").2.2.2.2
      ⟨"", [⟨false, "t", ""⟩]⟩ [] "/ok" 7 rfl rfl⟩

/-- C8: a list whose resource tag fails URL parsing or whose host
differs from the request host is skipped, while a parsed, host-matching
tag whose path fails prefix stripping aborts the whole request with the
strip status immediately; every strip failure carries status 404 with
the prefix-mismatch error. -/
theorem C8_resourceTag (env : Env) (host src dst : String) :
    (∀ l rest, l.resourceTag ≠ "" → env.parseURL l.resourceTag = none →
      confirmLoop env host src dst (l :: rest) = confirmLoop env host src dst rest) ∧
    (∀ l rest u, l.resourceTag ≠ "" → env.parseURL l.resourceTag = some u →
      u.host ≠ host →
      confirmLoop env host src dst (l :: rest) = confirmLoop env host src dst rest) ∧
    (∀ l rest u q st e, l.resourceTag ≠ "" → env.parseURL l.resourceTag = some u →
      u.host = host → stripPrefix env.pre u.path = (q, st, some e) →
      confirmLoop env host src dst (l :: rest) = (none, st, some e)) ∧
    (∀ pre p q st e, stripPrefix pre p = (q, st, some e) →
      st = 404 ∧ e = .errPrefixMismatch) := by
  refine ⟨?_, ?_, ?_, ?_⟩
  · intro l rest hne hp
    simp [confirmLoop, resolveTag, hne, hp]
  · intro l rest u hne hp hh
    simp [confirmLoop, resolveTag, hne, hp, hh]
  · intro l rest u q st e hne hp hh hs
    simp [confirmLoop, resolveTag, hne, hp, hh, hs]
  · intro pre p q st e hs
    unfold stripPrefix at hs
    split at hs
    · simp_all
    · split at hs <;> simp_all

/-- Environment for concrete resource-tag scenarios: prefix "/pre", the
tag "http://h/pre/x" parses with the right host and a strippable path,
"http://h/y" parses with the right host but a non-strippable path, and
"http://other/x" parses with a foreign host. -/
def envTag : Env :=
  { defaultEnv with
    pre := "/pre",
    parseURL := fun s =>
      if s = "http://h/pre/x" then some ⟨"h", "/pre/x"⟩
      else if s = "http://h/y" then some ⟨"h", "/y"⟩
      else if s = "http://other/x" then some ⟨"other", "/x"⟩
      else none,
    confirmRes := fun _ _ _ => .error .errConfirmationFailed }

/-- C8 witness: an unparsable tag and a foreign-host tag are skipped
(the loop result equals the result on the remaining lists), while a
host-matching tag whose path misses the prefix aborts with 404 and the
prefix-mismatch error. -/
theorem C8_witness :
    confirmLoop envTag "h" "/s" "/d" [⟨"%%", []⟩] =
      confirmLoop envTag "h" "/s" "/d" [] ∧
    confirmLoop envTag "h" "/s" "/d" [⟨"http://other/x", []⟩] =
      confirmLoop envTag "h" "/s" "/d" [] ∧
    confirmLoop envTag "h" "/s" "/d"
      [⟨"http://h/y", []⟩, ⟨"http://h/pre/x", []⟩] =
      (none, 404, some .errPrefixMismatch) ∧
    (404 = 404 ∧ GoError.errPrefixMismatch = .errPrefixMismatch) :=
  ⟨(C8_resourceTag envTag "h" "/s" "/d").1 ⟨"%%", []⟩ [] (by decide) rfl,
   (C8_resourceTag envTag "h" "/s" "/d").2.1 ⟨"http://other/x", []⟩ [] ⟨"other", "/x"⟩
     (by decide) rfl (by decide),
   (C8_resourceTag envTag "h" "/s" "/d").2.2.1 ⟨"http://h/y", []⟩
     [⟨"http://h/pre/x", []⟩] ⟨"h", "/y"⟩ "/y" 404 .errPrefixMismatch
     (by decide) rfl rfl rfl,
   (C8_resourceTag envTag "h" "/s" "/d").2.2.2 "/pre" "/y" "/y" 404
     .errPrefixMismatch rfl⟩

/-- C3: on a request without an If header, `confirmLocks` creates
zero-depth infinite-duration temporary locks on the non-empty paths
among src then dst, in that order; a dst failure after a src success
unlocks the src token before the failure is returned; on success the
release unlocks dst before src. -/
theorem C3_tempLocks (env : Env) (host src dst : String) :
    (∀ p, (tempLD p).root = p ∧ (tempLD p).zeroDepth = true ∧
      (tempLD p).duration = infiniteTimeout) ∧
    (∀ st dt, src ≠ "" → dst ≠ "" →
      env.createRes (tempLD src) = .ok st → env.createRes (tempLD dst) = .ok dt →
      confirmLocks env host "" src dst =
        ([LockEvent.create (tempLD src) (.ok st), LockEvent.create (tempLD dst) (.ok dt)],
         some (.tokens ((if dt ≠ "" then [dt] else []) ++ (if st ≠ "" then [st] else []))),
         0, none)) ∧
    (∀ st e, src ≠ "" → dst ≠ "" → st ≠ "" →
      env.createRes (tempLD src) = .ok st → env.createRes (tempLD dst) = .error e →
      confirmLocks env host "" src dst =
        ([LockEvent.create (tempLD src) (.ok st), LockEvent.create (tempLD dst) (.error e),
          LockEvent.unlock st], none, lockStatus e, some e)) ∧
    (∀ e, src ≠ "" → env.createRes (tempLD src) = .error e →
      confirmLocks env host "" src dst =
        ([LockEvent.create (tempLD src) (.error e)], none, lockStatus e, some e)) ∧
    (∀ dt, src = "" → dst ≠ "" → env.createRes (tempLD dst) = .ok dt →
      confirmLocks env host "" src dst =
        ([LockEvent.create (tempLD dst) (.ok dt)],
         some (.tokens (if dt ≠ "" then [dt] else [])), 0, none)) ∧
    (∀ st, src ≠ "" → dst = "" → env.createRes (tempLD src) = .ok st →
      confirmLocks env host "" src dst =
        ([LockEvent.create (tempLD src) (.ok st)],
         some (.tokens (if st ≠ "" then [st] else [])), 0, none)) := by
  refine ⟨fun p => ⟨rfl, rfl, rfl⟩, ?_, ?_, ?_, ?_, ?_⟩
  · intro st dt hs hd hcs hcd
    simp [confirmLocks, confirmLocksNoIf, hs, hd, hcs, hcd]
  · intro st e hs hd hst hcs hcd
    simp [confirmLocks, confirmLocksNoIf, hs, hd, hst, hcs, hcd]
  · intro e hs hcs
    cases hdst : decide (dst = "") <;>
      simp_all [confirmLocks, confirmLocksNoIf, hs, hcs]
  · intro dt hs hd hcd
    simp [confirmLocks, confirmLocksNoIf, hs, hd, hcd]
  · intro st hs hd hcs
    simp [confirmLocks, confirmLocksNoIf, hs, hd, hcs]

/-- Environment whose lock store hands out the token "s-tok" for the
temporary lock on "/s" and "d-tok" for the one on "/d". -/
def envLockOk : Env :=
  { defaultEnv with
    createRes := fun ld =>
      if ld = tempLD "/s" then .ok "s-tok"
      else if ld = tempLD "/d" then .ok "d-tok"
      else .error (.other "unexpected") }

/-- Environment whose lock store grants the temporary lock on "/s" but
reports the one on "/d" as conflicting. -/
def envLockDstBusy : Env :=
  { defaultEnv with
    createRes := fun ld =>
      if ld = tempLD "/s" then .ok "s-tok"
      else .error .errLocked }

/-- C3 witness: with both locks granted the release unlocks "d-tok"
before "s-tok"; with the dst lock refused the src token is unlocked
during the call and the failure is 423 ErrLocked. -/
theorem C3_witness :
    confirmLocks envLockOk "h" "" "/s" "/d" =
      ([LockEvent.create (tempLD "/s") (.ok "s-tok"),
        LockEvent.create (tempLD "/d") (.ok "d-tok")],
       some (.tokens ((if "d-tok" ≠ "" then ["d-tok"] else []) ++
         (if "s-tok" ≠ "" then ["s-tok"] else []))), 0, none) ∧
    confirmLocks envLockDstBusy "h" "" "/s" "/d" =
      ([LockEvent.create (tempLD "/s") (.ok "s-tok"),
        LockEvent.create (tempLD "/d") (.error .errLocked),
        LockEvent.unlock "s-tok"], none, lockStatus .errLocked, some .errLocked) :=
  ⟨(C3_tempLocks envLockOk "h" "/s" "/d").2.1 "s-tok" "d-tok"
     (by decide) (by decide) (by decide) (by decide),
   (C3_tempLocks envLockDstBusy "h" "/s" "/d").2.2.1 "s-tok" .errLocked
     (by decide) (by decide) (by decide) (by decide) (by decide)⟩

/-- C4: whenever `handleLock` returns a non-nil error, every lock it
created during the request has been unlocked again (the deferred
rollback), so a failed LOCK never leaves its new lock in the store. -/
theorem C4_lock_rollback (env : Env) (r : Request) (ld : LockDetails) (token : String) :
    (handleLock env r).2.2 ≠ none →
    LockAction.createdLock ld token ∈ (handleLock env r).1 →
    LockAction.unlockedTok token ∈ (handleLock env r).1 := by
  unfold handleLock
  repeat' split
  all_goals intro h1 h2
  all_goals simp_all

/-- Environment that grants the LOCK with token "new-tok", reports the
path as absent and fails the null-resource creation, and parses no
Timeout header to an infinite duration and the body to a non-empty
lock-info. -/
def envLockFail : Env :=
  { defaultEnv with
    readLockInfo := .ok { emptyLockInfo with write := true, ownerXML := "<o/>" },
    createRes := fun _ => .ok "new-tok",
    statRes := fun _ => some (.notExist "absent"),
    openRes := fun _ => some (.other "disk full") }

/-- A plain LOCK request on "/a" with no headers set. -/
def reqLock : Request where
  method := "LOCK"
  urlPath := "/a"
  host := "h"
  headers := fun _ => ""

/-- C4 witness: when the null-resource creation fails after the lock was
created, the handler's error is non-nil, the creation of "new-tok" is in
the action list, and so is its rollback unlock. -/
theorem C4_witness :
    LockAction.unlockedTok "new-tok" ∈ (handleLock envLockFail reqLock).1 :=
  C4_lock_rollback envLockFail reqLock
    { root := "/a", duration := infiniteTimeout, ownerXML := "<o/>",
      zeroDepth := false } "new-tok" (by decide) (by decide)

/-- C5: with an empty LOCK body the handler refreshes: it answers 400
unless the parsed If header is exactly one list with exactly one
condition carrying a non-empty token, maps a NoSuchLock refresh failure
to 412 and any other refresh failure to 500, and on success echoes the
refreshed LockDetails. -/
theorem C5_lock_refresh (env : Env) (r : Request) (duration : Int)
    (hT : env.parseTimeout (r.headers "Timeout") = .ok duration)
    (hB : env.readLockInfo = .ok emptyLockInfo) :
    (env.parseIf (r.headers "If") = none →
      handleLock env r = ([], 400, some .errInvalidIfHeader)) ∧
    (∀ ih, env.parseIf (r.headers "If") = some ih →
      (¬ ∃ l c, ih.lists = [l] ∧ l.conditions = [c] ∧ c.token ≠ "") →
      handleLock env r = ([], 400, some .errInvalidLockToken)) ∧
    (∀ ih l c, env.parseIf (r.headers "If") = some ih →
      ih.lists = [l] → l.conditions = [c] → c.token ≠ "" →
      (env.refreshRes c.token duration = .error .errNoSuchLock →
        handleLock env r =
          ([.refreshed c.token duration], 412, some .errNoSuchLock)) ∧
      (∀ e, env.refreshRes c.token duration = .error e → e ≠ .errNoSuchLock →
        handleLock env r = ([.refreshed c.token duration], 500, some e)) ∧
      (∀ ld, env.refreshRes c.token duration = .ok ld →
        handleLock env r =
          ([.refreshed c.token duration, .wroteLockInfo c.token ld], 0, none))) := by
  refine ⟨?_, ?_, ?_⟩
  · intro hp
    simp [handleLock, hT, hB, hp]
  · intro ih hp hshape
    have htok : refreshToken ih = "" := by
      unfold refreshToken
      split
      · next l hl =>
        split
        · next c hc =>
          by_contra hne
          exact hshape ⟨l, c, hl, hc, hne⟩
        · rfl
      · rfl
    simp [handleLock, hT, hB, hp, htok]
  · intro ih l c hp hl hc htok
    have hrt : refreshToken ih = c.token := by
      simp [refreshToken, hl, hc]
    refine ⟨?_, ?_, ?_⟩
    · intro hr
      simp [handleLock, hT, hB, hp, hrt, htok, hr]
    · intro e hr hne
      simp [handleLock, hT, hB, hp, hrt, htok, hr, hne]
    · intro ld hr
      simp [handleLock, hT, hB, hp, hrt, htok, hr]

/-- Environment for refresh scenarios: the If header "(<t1>)" parses to
one list whose single condition names token "t1", "(<t1> <t2>)" parses
to one list with two conditions, and refreshing "t1" succeeds with a
lock on "/a". -/
def envRefresh : Env :=
  { defaultEnv with
    parseIf := fun s =>
      if s = "(<t1>)" then some ⟨[⟨"", [⟨false, "t1", ""⟩]⟩]⟩
      else if s = "(<t1> <t2>)" then
        some ⟨[⟨"", [⟨false, "t1", ""⟩, ⟨false, "t2", ""⟩]⟩]⟩
      else none,
    refreshRes := fun t _ =>
      if t = "t1" then
        .ok { root := "/a", duration := infiniteTimeout, ownerXML := "", zeroDepth := false }
      else .error .errNoSuchLock }

/-- A LOCK request carrying only the If header "(<t1>)". -/
def reqRefreshGood : Request where
  method := "LOCK"
  urlPath := "/a"
  host := "h"
  headers := fun name => if name = "If" then "(<t1>)" else ""

/-- A LOCK request carrying only the If header "(<t1> <t2>)" (one list,
two conditions). -/
def reqRefreshTwoConds : Request where
  method := "LOCK"
  urlPath := "/a"
  host := "h"
  headers := fun name => if name = "If" then "(<t1> <t2>)" else ""

/-- A LOCK request with no If header at all. -/
def reqRefreshNoIf : Request where
  method := "LOCK"
  urlPath := "/a"
  host := "h"
  headers := fun _ => ""

/-- C5 witness: an unparsable If header gives 400, a one-list/two-
condition header gives 400 with the invalid-token error, and the header
"(<t1>)" refreshes successfully and echoes the refreshed details. -/
theorem C5_witness :
    handleLock envRefresh reqRefreshNoIf = ([], 400, some .errInvalidIfHeader) ∧
    handleLock envRefresh reqRefreshTwoConds = ([], 400, some .errInvalidLockToken) ∧
    handleLock envRefresh reqRefreshGood =
      ([.refreshed "t1" infiniteTimeout,
        .wroteLockInfo "t1"
          { root := "/a", duration := infiniteTimeout, ownerXML := "", zeroDepth := false }],
       0, none) :=
  ⟨(C5_lock_refresh envRefresh reqRefreshNoIf infiniteTimeout rfl rfl).1 rfl,
   (C5_lock_refresh envRefresh reqRefreshTwoConds infiniteTimeout rfl rfl).2.1
     ⟨[⟨"", [⟨false, "t1", ""⟩, ⟨false, "t2", ""⟩]⟩]⟩ rfl
     (by
       rintro ⟨l, c, hl, hc, hne⟩
       have hle : l = ⟨"", [⟨false, "t1", ""⟩, ⟨false, "t2", ""⟩]⟩ := by
         simpa using hl.symm
       subst hle
       simp at hc),
   ((C5_lock_refresh envRefresh reqRefreshGood infiniteTimeout rfl rfl).2.2
     ⟨[⟨"", [⟨false, "t1", ""⟩]⟩]⟩ ⟨"", [⟨false, "t1", ""⟩]⟩ ⟨false, "t1", ""⟩
     rfl rfl rfl (by decide)).2.2
     { root := "/a", duration := infiniteTimeout, ownerXML := "", zeroDepth := false } rfl⟩

/-- C6: `handleUnlock` answers 400 when the Lock-Token header is not a
bracketed Coded-URL; otherwise it strips the brackets, hands the token
to `Unlock` and maps nil to 204, Forbidden to 403, Locked to 423,
NoSuchLock to 409 and anything else to 500. -/
theorem C6_handleUnlock (env : Env) (r : Request) :
    (((r.headers "Lock-Token").length < 2 ∨ (r.headers "Lock-Token").front ≠ '<' ∨
        (r.headers "Lock-Token").back ≠ '>') →
      handleUnlock env r = (400, some .errInvalidLockToken, none)) ∧
    (¬ ((r.headers "Lock-Token").length < 2 ∨ (r.headers "Lock-Token").front ≠ '<' ∨
        (r.headers "Lock-Token").back ≠ '>') →
      (env.unlockRes (((r.headers "Lock-Token").drop 1).dropRight 1) = none →
        handleUnlock env r =
          (204, none, some (((r.headers "Lock-Token").drop 1).dropRight 1))) ∧
      (∀ e, env.unlockRes (((r.headers "Lock-Token").drop 1).dropRight 1) = some e →
        handleUnlock env r =
          (if e = .errForbidden then 403
           else if e = .errLocked then 423
           else if e = .errNoSuchLock then 409
           else 500, some e, some (((r.headers "Lock-Token").drop 1).dropRight 1)))) := by
  refine ⟨?_, ?_⟩
  · intro hbad
    simp [handleUnlock, hbad]
  · intro hok
    refine ⟨?_, ?_⟩
    · intro hu
      simp [handleUnlock, hok, hu]
    · intro e hu
      simp [handleUnlock, hok, hu]

/-- Environment whose lock store reports NoSuchLock for the token
"other" and succeeds for every other token. -/
def envUnlock : Env :=
  { defaultEnv with
    unlockRes := fun t => if t = "other" then some .errNoSuchLock else none }

/-- An UNLOCK request whose Lock-Token header is the unbracketed "tok". -/
def reqUnlockBad : Request where
  method := "UNLOCK"
  urlPath := "/a"
  host := "h"
  headers := fun name => if name = "Lock-Token" then "tok" else ""

/-- An UNLOCK request with Lock-Token "<tok>". -/
def reqUnlockGood : Request where
  method := "UNLOCK"
  urlPath := "/a"
  host := "h"
  headers := fun name => if name = "Lock-Token" then "<tok>" else ""

/-- An UNLOCK request with Lock-Token "<other>", a token unknown to the
lock store. -/
def reqUnlockOther : Request where
  method := "UNLOCK"
  urlPath := "/a"
  host := "h"
  headers := fun name => if name = "Lock-Token" then "<other>" else ""

/-- C6 witness: "tok" without brackets yields 400, "<tok>" unlocks and
yields 204, and "<other>" maps NoSuchLock to 409. -/
theorem C6_witness :
    handleUnlock envUnlock reqUnlockBad = (400, some .errInvalidLockToken, none) ∧
    handleUnlock envUnlock reqUnlockGood = (204, none, some "tok") ∧
    handleUnlock envUnlock reqUnlockOther =
      (if GoError.errNoSuchLock = .errForbidden then 403
       else if GoError.errNoSuchLock = .errLocked then 423
       else if GoError.errNoSuchLock = .errNoSuchLock then 409
       else 500, some .errNoSuchLock, some "other") :=
  ⟨(C6_handleUnlock envUnlock reqUnlockBad).1 (by decide),
   ((C6_handleUnlock envUnlock reqUnlockGood).2 (by decide)).1 rfl,
   ((C6_handleUnlock envUnlock reqUnlockOther).2 (by decide)).2 .errNoSuchLock rfl⟩

/-- C9: after a successful prefix strip and lock confirmation,
`handleMkcol` answers 415 exactly when ContentLength is strictly
positive; a ContentLength of 0 or -1 (unknown length) proceeds to the
`Mkdir` call, whose outcome is mapped to 201 / 409 / 405. -/
theorem C9_mkcol (env : Env) (r : Request) (cl : Int) (reqPath : String)
    (h1 : stripPrefix env.pre r.urlPath = (reqPath, 200, none))
    (h2 : (confirmLocks env r.host (r.headers "If") reqPath "").2.2.2 = none) :
    (cl > 0 → handleMkcol env r cl = (false, 415, none)) ∧
    (cl ≤ 0 → env.mkdirRes reqPath = none → handleMkcol env r cl = (true, 201, none)) ∧
    (cl ≤ 0 → ∀ e, env.mkdirRes reqPath = some e →
      handleMkcol env r cl = (true, if os_IsNotExist e then 409 else 405, some e)) := by
  rcases hE : confirmLocks env r.host (r.headers "If") reqPath "" with ⟨evs, rel, st0, oe⟩
  rw [hE] at h2
  simp only at h2
  subst h2
  refine ⟨?_, ?_, ?_⟩
  · intro hcl
    simp [handleMkcol, h1, hE, hcl]
  · intro hcl hm
    have : ¬ cl > 0 := by omega
    simp [handleMkcol, h1, hE, this, hm]
  · intro hcl e hm
    have : ¬ cl > 0 := by omega
    simp [handleMkcol, h1, hE, this, hm]

/-- A MKCOL request on "/c" with no headers. -/
def reqMkcol : Request where
  method := "MKCOL"
  urlPath := "/c"
  host := "h"
  headers := fun _ => ""

/-- C9 witness: ContentLength 5 yields 415 without touching the
filesystem, while ContentLength -1 (chunked body) and 0 both reach
`Mkdir` and yield 201. -/
theorem C9_witness :
    handleMkcol defaultEnv reqMkcol 5 = (false, 415, none) ∧
    handleMkcol defaultEnv reqMkcol (-1) = (true, 201, none) ∧
    handleMkcol defaultEnv reqMkcol 0 = (true, 201, none) :=
  ⟨(C9_mkcol defaultEnv reqMkcol 5 "/c" rfl rfl).1 (by decide),
   (C9_mkcol defaultEnv reqMkcol (-1) "/c" rfl rfl).2.1 (by decide) rfl,
   (C9_mkcol defaultEnv reqMkcol 0 "/c" rfl rfl).2.1 (by decide) rfl⟩

/-- Environment in which the ETag computation fails while the open and
stat of the target succeed on a regular file. -/
def envEtagFail : Env :=
  { defaultEnv with etagRes := fun _ => .error (.other "etag failure") }

/-- A GET request for "/f". -/
def reqGet : Request where
  method := "GET"
  urlPath := "/f"
  host := "h"
  headers := fun _ => ""

/-- C10, counterexample: when `findETag` fails after a successful open
and stat of a regular file, `handleGetHeadPost` returns status 500 — an
error status that is neither 404 nor 405, although the claim says 405 is
the only non-404 error status the handler produces. -/
theorem C10_counterexample :
    handleGetHeadPost envEtagFail reqGet = (false, 500, some (.other "etag failure")) ∧
    (500 ≠ 404 ∧ 500 ≠ 405) :=
  ⟨rfl, by decide⟩

/-- C10, amended: every failure of OpenFile or of the subsequent Stat
maps to 404 regardless of the error's kind, a directory maps to 405,
and in addition a failure of the ETag computation maps to 500. -/
theorem C10_status_map (env : Env) (r : Request) (reqPath : String)
    (h1 : stripPrefix env.pre r.urlPath = (reqPath, 200, none)) :
    (∀ e, env.openRes reqPath = some e → handleGetHeadPost env r = (false, 404, some e)) ∧
    (∀ e, env.openRes reqPath = none → env.fstatRes = .error e →
      handleGetHeadPost env r = (false, 404, some e)) ∧
    (∀ fi, env.openRes reqPath = none → env.fstatRes = .ok fi → fi.isDir = true →
      handleGetHeadPost env r = (false, 405, none)) ∧
    (∀ fi e, env.openRes reqPath = none → env.fstatRes = .ok fi → fi.isDir = false →
      env.etagRes reqPath = .error e → handleGetHeadPost env r = (false, 500, some e)) := by
  refine ⟨?_, ?_, ?_, ?_⟩
  · intro e ho
    simp [handleGetHeadPost, h1, ho]
  · intro e ho hs
    simp [handleGetHeadPost, h1, ho, hs]
  · intro fi ho hs hd
    simp [handleGetHeadPost, h1, ho, hs, hd]
  · intro fi e ho hs hd he
    simp [handleGetHeadPost, h1, ho, hs, hd, he]

/-- Environment whose open fails with a non-not-exist infrastructure
error. -/
def envOpenFail : Env :=
  { defaultEnv with openRes := fun _ => some (.other "io error") }

/-- Environment whose target is a directory. -/
def envGetDir : Env :=
  { defaultEnv with fstatRes := .ok ⟨true⟩ }

/-- C10 witness: an infrastructure open failure yields 404 (not 500), a
directory yields 405, and an ETag failure yields 500. -/
theorem C10_witness :
    handleGetHeadPost envOpenFail reqGet = (false, 404, some (.other "io error")) ∧
    handleGetHeadPost envGetDir reqGet = (false, 405, none) ∧
    handleGetHeadPost envEtagFail reqGet = (false, 500, some (.other "etag failure")) :=
  ⟨(C10_status_map envOpenFail reqGet "/f" rfl).1 (.other "io error") rfl,
   (C10_status_map envGetDir reqGet "/f" rfl).2.2.1 ⟨true⟩ rfl rfl rfl,
   (C10_status_map envEtagFail reqGet "/f" rfl).2.2.2 ⟨false⟩ (.other "etag failure")
     rfl rfl rfl rfl⟩

end Dav
